import Mathlib

/-!
Verification of the evaluation harness in
`src/Transformer-decoder-only/src/evaluation.py`.

Texts are Python strings; we embed them as `List Char`, so `s[:n]` becomes
`List.take n` and `len(s)` becomes `List.length`.  External collaborators
(the trained model inside `TextGenerator`, the BLEU/ROUGE scorers loaded via
`evaluate.load`) are abstracted as function parameters, exactly at the
boundary where `evaluation.py` calls into them.
-/

/-- A text record, generated text, or prompt: a Python string as a
character sequence. -/
abbrev Text := List Char

/-- The per-pair alignment of `main` (evaluation.py lines 90-91):
`generated_texts.append(generated_text[:min(len(generated_text), len(test_datasets[i]))])`
and
`reference_texts.append(test_datasets[i][:min(len(generated_text), len(test_datasets[i]))])`.
Both the generated text `g` and the reference record `r` are truncated to
`min (length g) (length r)` characters. -/
def alignPair (g r : Text) : Text × Text :=
  (g.take (min g.length r.length), r.take (min g.length r.length))

/-- The configuration object of evaluation.py lines 12-22 (`ModelConfig`),
populated from `config.json`.  It carries the context length, model
dimensions, dropout, and the model/dataset paths — and nothing else; in
particular it has no field for `temperature`, `top_k` or `max_tokens`.
`DEVICE` is a hardware probe with no bearing on any claim and is omitted. -/
structure ModelConfig where
  context_length : Nat
  d_model : Nat
  d_ff : Nat
  num_blocks : Nat
  num_heads : Nat
  dropout : Rat
  model_path : Text
  dataset_path : Text

/-- The sampling parameters of one `generator.generate_text` call. -/
structure GenParams where
  max_tokens : Nat
  temperature : Rat
  top_k : Nat

/-- The prompt construction of `main` (evaluation.py line 88):
`prompt = test_datasets[i][:ModelConfig.CONTEXT_LENGTH]` — the record
truncated, by Python string slicing, to at most `CONTEXT_LENGTH`
characters. -/
def promptOf (ctx : Nat) (record : Text) : Text :=
  record.take ctx

/-- The generation parameters of `main` (evaluation.py line 89):
`generator.generate_text(prompt, max_tokens=len(test_datasets[i]), temperature=0.7, top_k=50)`.
The configuration is in scope in `main` but is not consulted:
`temperature` and `top_k` are the literals `0.7` and `50`, and
`max_tokens` is the character length of the current record. -/
def genParamsFor (_cfg : ModelConfig) (record : Text) : GenParams :=
  { max_tokens := record.length, temperature := 7 / 10, top_k := 50 }

/-- One iteration of the generation loop up to the `generate_text` call
(evaluation.py lines 88-89): the record is truncated to the prompt and
handed, with the parameters of line 89, to the text generator.  The
generator itself (`generation.py`, driving the trained model) is outside
this file's source and is abstracted as the function `gen`. -/
def generatedFor (gen : Text → GenParams → Text) (cfg : ModelConfig)
    (record : Text) : Text :=
  gen (promptOf cfg.context_length record) (genParamsFor cfg record)

/-- The batch size of `main` (evaluation.py line 75): `test_batch = 10`. -/
def test_batch : Nat := 10

/-- The record-collection loop of `main` (evaluation.py lines 76-77):
`for i in range(0, test_batch): test_datasets.append(datasets['train'][i]['text'])`.
`collectBatch split k` mirrors the first `k` iterations; Python raises on
an out-of-range index, embedded as `none`. -/
def collectBatch (split : List Text) : Nat → Option (List Text)
  | 0 => some []
  | k + 1 => do
    let acc ← collectBatch split k
    let x ← split[k]?
    pure (acc ++ [x])

/-- The evaluation batch of `main`: the records collected by the loop of
lines 76-77 with `test_batch = 10`. -/
def buildTestBatch (split : List Text) : Option (List Text) :=
  collectBatch split test_batch

/-- The pair-construction loop of `main` (evaluation.py lines 85-91): for
each record, truncate it to a prompt, generate, then append the aligned
generated text to `generated_texts` and the aligned reference to
`reference_texts`.  The two accumulator lists of the loop are returned as
a pair of lists in record order. -/
def processBatch (gen : Text → GenParams → Text) (cfg : ModelConfig)
    (records : List Text) : List Text × List Text :=
  (records.map fun r => (alignPair (generatedFor gen cfg r) r).1,
   records.map fun r => (alignPair (generatedFor gen cfg r) r).2)

/-- The name of a delegated scorer loaded by `evaluate_texts`
(evaluation.py lines 53 and 57). -/
inductive ScorerName
  | bleu
  | rouge
deriving DecidableEq

/-- A record of one `compute` invocation on a delegated scorer: which
scorer, and the prediction and reference lists it received. -/
structure ScorerCall where
  scorer : ScorerName
  predictions : List Text
  references : List Text
deriving DecidableEq

/-- One scorer invocation (`bleu.compute(predictions=..., references=...)`,
evaluation.py line 54, and likewise line 58), instrumented: the result is
computed from the full prediction and reference lists and the invocation
is appended to a call log. -/
def invokeScorer {α : Type} (name : ScorerName) (f : List Text → List Text → α)
    (p r : List Text) (log : List ScorerCall) : α × List ScorerCall :=
  (f p r, log ++ [⟨name, p, r⟩])

/-- The score report returned by `evaluate_texts` (evaluation.py lines
60-63): a dictionary with the entries `bleu` and `rouge`, each holding the
delegated scorer's structured result (opaque here). -/
structure ScoreReport (α β : Type) where
  bleu : α
  rouge : β

/-- `evaluate_texts` (evaluation.py lines 38-63), instrumented with a call
log: load BLEU and compute it once over the full lists, load ROUGE and
compute it once over the full lists, return the report with both entries.
The delegated scorers are external (`evaluate.load`) and abstracted as
`bleuC` and `rougeC`. -/
def evaluate_textsTrace {α β : Type} (bleuC : List Text → List Text → α)
    (rougeC : List Text → List Text → β) (generated_texts reference_texts : List Text)
    (log : List ScorerCall) : ScoreReport α β × List ScorerCall :=
  let b := invokeScorer .bleu bleuC generated_texts reference_texts log
  let rg := invokeScorer .rouge rougeC generated_texts reference_texts b.2
  (⟨b.1, rg.1⟩, rg.2)

/-- The error taxonomy the specification assigns to the Evaluator. -/
inductive EvalError
  | EmptyBatch
  | MetricUnavailable
deriving DecidableEq

/-- `evaluate_texts` (evaluation.py lines 38-63) with fallible scorers: a
delegated scorer that cannot be invoked (`evaluate.load`/`compute`
failing) is `none`, surfaced as the specification's `MetricUnavailable`.
The source body computes BLEU over the full lists, then ROUGE over the
full lists, and returns the two-entry report; it contains no emptiness
check on its inputs. -/
def evaluate_texts {α β : Type} (bleuC : List Text → List Text → Option α)
    (rougeC : List Text → List Text → Option β)
    (generated_texts reference_texts : List Text) :
    Except EvalError (ScoreReport α β) :=
  match bleuC generated_texts reference_texts with
  | none => .error .MetricUnavailable
  | some b =>
    match rougeC generated_texts reference_texts with
    | none => .error .MetricUnavailable
    | some rg => .ok ⟨b, rg⟩

/-- An observable step of `main` (evaluation.py lines 87-98): per sample
`i`, the prompt truncation of line 88, the generation call of line 89 and
the pair alignment of lines 90-91; then the single aggregation call of
line 98. -/
inductive Ev
  | truncate (i : Nat)
  | generate (i : Nat)
  | align (i : Nat)
  | aggregate
deriving DecidableEq

/-- The event trace of the `for` loop of evaluation.py lines 87-91 over
samples `0, …, n-1`, in program order: each iteration truncates, then
generates, then aligns, before the next iteration starts. -/
def loopTrace : Nat → List Ev
  | 0 => []
  | k + 1 => loopTrace k ++ [.truncate k, .generate k, .align k]

/-- The event trace of `main` for a batch of `n` samples: the loop of
lines 87-91, followed by the one aggregation call of line 98. -/
def mainTrace (n : Nat) : List Ev :=
  loopTrace n ++ [.aggregate]

/-- Claim C1: for every evaluation pair, with `g` the generated text and `r`
the reference record, the aligned pair is `(g[0:n], r[0:n])` with
`n = min (length g) (length r)` measured in characters, and after alignment
both members have exactly length `n`. -/
theorem alignPair_truncates_to_min (g r : Text) :
    (alignPair g r).1 = g.take (min g.length r.length) ∧
    (alignPair g r).2 = r.take (min g.length r.length) ∧
    (alignPair g r).1.length = min g.length r.length ∧
    (alignPair g r).2.length = min g.length r.length := by
  refine ⟨rfl, rfl, ?_, ?_⟩
  · simp [alignPair, Nat.min_le_left]
  · simp [alignPair, Nat.min_le_right]

/-- Claim C2, counterexample: the spec's worked example is wrong about the
code.  The reference `"the quick brown fox jumps"` has 25 characters, not
27, and the aligned pair on these inputs is not
`("the quick brown", "the quick ")`: the aligned reference is the first 15
characters of the reference, `"the quick brown"`, not the 10-character
string `"the quick "`. -/
theorem alignPair_example_refutes_spec :
    ("the quick brown fox jumps".toList.length = 25) ∧
    alignPair "the quick brown".toList "the quick brown fox jumps".toList ≠
      ("the quick brown".toList, "the quick ".toList) := by
  constructor
  · decide
  · decide

/-- Claim C2, amended: on reference `"the quick brown fox jumps"`
(25 characters) and generated text `"the quick brown"` (15 characters), the
aligned pair is `("the quick brown", "the quick brown")` — both members of
length 15, the aligned reference being the 15-character prefix of the
reference record — and this aligned pair, not the original strings, is
what is passed to scoring: running the batch pipeline on this one-record
batch with a generator producing `"the quick brown"`, both delegated
scorers receive exactly the aligned lists `["the quick brown"]`, which
differ from the original reference list. -/
theorem alignPair_example_correct :
    ("the quick brown fox jumps".toList.length = 25) ∧
    ("the quick brown".toList.length = 15) ∧
    alignPair "the quick brown".toList "the quick brown fox jumps".toList =
      ("the quick brown".toList, "the quick brown".toList) ∧
    (alignPair "the quick brown".toList "the quick brown fox jumps".toList).1.length = 15 ∧
    (alignPair "the quick brown".toList "the quick brown fox jumps".toList).2.length = 15 ∧
    processBatch (fun _ _ => "the quick brown".toList) ⟨16, 512, 2048, 8, 8, 1 / 10, [], []⟩
        ["the quick brown fox jumps".toList] =
      (["the quick brown".toList], ["the quick brown".toList]) ∧
    evaluate_textsTrace (fun p r => (p, r)) (fun p r => (p, r))
        (processBatch (fun _ _ => "the quick brown".toList)
          ⟨16, 512, 2048, 8, 8, 1 / 10, [], []⟩ ["the quick brown fox jumps".toList]).1
        (processBatch (fun _ _ => "the quick brown".toList)
          ⟨16, 512, 2048, 8, 8, 1 / 10, [], []⟩ ["the quick brown fox jumps".toList]).2 [] =
      ({ bleu := (["the quick brown".toList], ["the quick brown".toList]),
         rouge := (["the quick brown".toList], ["the quick brown".toList]) },
       [⟨.bleu, ["the quick brown".toList], ["the quick brown".toList]⟩,
        ⟨.rouge, ["the quick brown".toList], ["the quick brown".toList]⟩]) ∧
    (["the quick brown".toList] : List Text) ≠ ["the quick brown fox jumps".toList] := by
  refine ⟨by decide, by decide, by decide, by decide, by decide, by decide, rfl, by decide⟩

/-- Helper: the loop over `n` samples emits three events per sample. -/
theorem loopTrace_length (n : Nat) : (loopTrace n).length = 3 * n := by
  induction n with
  | zero => rfl
  | succ k ih => simp [loopTrace, ih, Nat.mul_succ]

/-- Helper: in the loop trace, sample `i` occupies positions `3*i`,
`3*i+1` and `3*i+2`, in the order truncate, generate, align. -/
theorem loopTrace_getElem (n i : Nat) (h : i < n) :
    (loopTrace n)[3 * i]? = some (.truncate i) ∧
    (loopTrace n)[3 * i + 1]? = some (.generate i) ∧
    (loopTrace n)[3 * i + 2]? = some (.align i) := by
  induction n with
  | zero => exact absurd h (Nat.not_lt_zero i)
  | succ k ih =>
    have hl := loopTrace_length k
    by_cases hik : i < k
    · have hrec := ih hik
      refine ⟨?_, ?_, ?_⟩ <;> rw [loopTrace, List.getElem?_append_left (by omega)]
      exacts [hrec.1, hrec.2.1, hrec.2.2]
    · have hik' : i = k := by omega
      subst hik'
      have h1 : 3 * i + 1 - 3 * i = 1 := by omega
      have h2 : 3 * i + 2 - 3 * i = 2 := by omega
      refine ⟨?_, ?_, ?_⟩ <;> rw [loopTrace, List.getElem?_append_right (by omega), hl]
      · rw [Nat.sub_self]; rfl
      · rw [h1]; rfl
      · rw [h2]; rfl

/-- Helper: collecting `k` records succeeds, returning the first `k`
records in order, whenever the split holds at least `k` records. -/
theorem collectBatch_eq_take (split : List Text) (k : Nat) (h : k ≤ split.length) :
    collectBatch split k = some (split.take k) := by
  induction k with
  | zero => rfl
  | succ m ih =>
    have hlt : m < split.length := h
    have htake : split.take (m + 1) = split.take m ++ [split[m]] := by
      rw [List.take_succ, List.getElem?_eq_getElem hlt]
      rfl
    rw [collectBatch, ih (Nat.le_of_lt hlt), List.getElem?_eq_getElem hlt, htake]
    rfl

/-- Helper: collecting `k` records fails when the split holds fewer than
`k` records — the first out-of-range index aborts the loop. -/
theorem collectBatch_eq_none (split : List Text) (k : Nat) (h : split.length < k) :
    collectBatch split k = none := by
  induction k with
  | zero => exact absurd h (Nat.not_lt_zero _)
  | succ m ih =>
    by_cases hm : split.length < m
    · rw [collectBatch, ih hm]; rfl
    · have hle : m ≤ split.length := Nat.not_lt.mp hm
      have hmlen : split.length ≤ m := by omega
      rw [collectBatch, collectBatch_eq_take split m hle]
      simp [List.getElem?_eq_none hmlen]

/-- Claim C3: aggregation is corpus-level.  After the batch is aligned,
`evaluate_texts` passes the full candidate list and the full reference
list to each delegated scorer in a single `compute` call per scorer — the
call log holds exactly one BLEU call and one ROUGE call, each receiving
the complete aligned lists — and the resulting report carries the `bleu`
and `rouge` entries computed by those two calls. -/
theorem corpus_level_aggregation {α β : Type} (bleuC : List Text → List Text → α)
    (rougeC : List Text → List Text → β) (gen : Text → GenParams → Text)
    (cfg : ModelConfig) (records : List Text) :
    evaluate_textsTrace bleuC rougeC (processBatch gen cfg records).1
        (processBatch gen cfg records).2 [] =
      ({ bleu := bleuC (processBatch gen cfg records).1 (processBatch gen cfg records).2,
         rouge := rougeC (processBatch gen cfg records).1 (processBatch gen cfg records).2 },
       [⟨.bleu, (processBatch gen cfg records).1, (processBatch gen cfg records).2⟩,
        ⟨.rouge, (processBatch gen cfg records).1, (processBatch gen cfg records).2⟩]) :=
  rfl

/-- Claim C4, counterexample: on the empty batch the code raises no
`EmptyBatch` error.  With scorers that accept empty input,
`evaluate_texts [] []` returns a ScoreReport — contradicting the claim
that zero pairs raise `EmptyBatch` and produce no report. -/
theorem evaluate_texts_empty_batch_scores :
    evaluate_texts (fun _ _ => some 0) (fun _ _ => some 0)
        ([] : List Text) ([] : List Text) = Except.ok { bleu := 0, rouge := 0 } ∧
    evaluate_texts (fun _ _ => some 0) (fun _ _ => some 0)
        ([] : List Text) ([] : List Text) ≠ Except.error EvalError.EmptyBatch :=
  ⟨rfl, fun h => nomatch h⟩

/-- Claim C4, amended: `evaluate_texts` has no emptiness guard.  On zero
pairs it never raises `EmptyBatch`; it invokes the delegated scorers on
the empty lists, returns their report when both succeed, and fails only
when a scorer itself cannot be invoked. -/
theorem evaluate_texts_empty_no_guard {α β : Type}
    (bleuC : List Text → List Text → Option α) (rougeC : List Text → List Text → Option β) :
    evaluate_texts bleuC rougeC [] [] ≠ Except.error EvalError.EmptyBatch ∧
    (∀ b rg, bleuC [] [] = some b → rougeC [] [] = some rg →
      evaluate_texts bleuC rougeC [] [] = Except.ok { bleu := b, rouge := rg }) := by
  constructor
  · cases hb : bleuC [] [] with
    | none => simp [evaluate_texts, hb]
    | some b =>
      cases hr : rougeC [] [] with
      | none => simp [evaluate_texts, hb, hr]
      | some rg => simp [evaluate_texts, hb, hr]
  · intro b rg hb hr
    simp [evaluate_texts, hb, hr]

/-- Witness for C4's amended theorem at concrete scorers. -/
theorem evaluate_texts_empty_no_guard_witness :
    evaluate_texts (fun _ _ => some 1) (fun _ _ => some 2) ([] : List Text) [] ≠
      Except.error EvalError.EmptyBatch ∧
    evaluate_texts (fun _ _ => some 1) (fun _ _ => some 2) ([] : List Text) [] =
      Except.ok { bleu := 1, rouge := 2 } :=
  ⟨(evaluate_texts_empty_no_guard (fun _ _ => some 1) (fun _ _ => some 2)).1,
   (evaluate_texts_empty_no_guard (fun _ _ => some 1) (fun _ _ => some 2)).2 1 2 rfl rfl⟩

/-- Claim C5: the prompt handed to the text generator is the record
truncated, in characters, to at most `CONTEXT_LENGTH`; when the record is
shorter than the context length the prompt is exactly the whole record.
The first conjunct records that this prompt, with the line-89 parameters,
is precisely what the generation call receives. -/
theorem prompt_is_truncated_record (gen : Text → GenParams → Text) (cfg : ModelConfig)
    (record : Text) :
    generatedFor gen cfg record =
      gen (promptOf cfg.context_length record) (genParamsFor cfg record) ∧
    (promptOf cfg.context_length record).length = min cfg.context_length record.length ∧
    (promptOf cfg.context_length record).length ≤ cfg.context_length ∧
    (record.length ≤ cfg.context_length → promptOf cfg.context_length record = record) :=
  ⟨rfl, List.length_take _ _, by simp [promptOf],
   fun h => List.take_of_length_le h⟩

/-- Witness for C5 at a concrete short record and context length 16. -/
theorem prompt_is_truncated_record_witness :
    generatedFor (fun p _ => p) ⟨16, 512, 2048, 8, 8, 1 / 10, [], []⟩ "abc".toList =
      (fun (p : Text) (_ : GenParams) => p)
        (promptOf 16 "abc".toList)
        (genParamsFor ⟨16, 512, 2048, 8, 8, 1 / 10, [], []⟩ "abc".toList) ∧
    promptOf 16 "abc".toList = "abc".toList :=
  ⟨(prompt_is_truncated_record (fun p _ => p) ⟨16, 512, 2048, 8, 8, 1 / 10, [], []⟩
      "abc".toList).1,
   (prompt_is_truncated_record (fun p _ => p) ⟨16, 512, 2048, 8, 8, 1 / 10, [], []⟩
      "abc".toList).2.2.2 (by decide)⟩

/-- Claim C6, counterexample: the generation parameters are not consumed
from the configuration.  Two configurations that disagree on every field
yield identical parameters, fixed at the hard-coded literals
`temperature = 0.7`, `top_k = 50`, with `max_tokens` the record's
character length. -/
theorem genParams_independent_of_config :
    (⟨16, 512, 2048, 8, 8, 1 / 10, [], []⟩ : ModelConfig).context_length ≠
      (⟨999, 1, 1, 1, 1, 0, ['x'], ['y']⟩ : ModelConfig).context_length ∧
    genParamsFor ⟨16, 512, 2048, 8, 8, 1 / 10, [], []⟩ "abcd".toList =
      genParamsFor ⟨999, 1, 1, 1, 1, 0, ['x'], ['y']⟩ "abcd".toList ∧
    (genParamsFor ⟨16, 512, 2048, 8, 8, 1 / 10, [], []⟩ "abcd".toList).temperature = 7 / 10 ∧
    (genParamsFor ⟨16, 512, 2048, 8, 8, 1 / 10, [], []⟩ "abcd".toList).top_k = 50 ∧
    (genParamsFor ⟨16, 512, 2048, 8, 8, 1 / 10, [], []⟩ "abcd".toList).max_tokens = 4 :=
  ⟨by decide, rfl, rfl, rfl, rfl⟩

/-- Claim C6, amended: for every sample, `temperature` and `top_k` are the
literals `0.7` and `50` hard-coded in the harness call, and `max_tokens`
is the character length of the current record; none of them depends on the
loaded configuration object, which carries no generation parameters. -/
theorem genParams_hardcoded (cfg cfg' : ModelConfig) (record : Text) :
    genParamsFor cfg record = genParamsFor cfg' record ∧
    (genParamsFor cfg record).temperature = 7 / 10 ∧
    (genParamsFor cfg record).top_k = 50 ∧
    (genParamsFor cfg record).max_tokens = record.length :=
  ⟨rfl, rfl, rfl, rfl⟩

/-- Claim C7: when the train split holds at least `test_batch = 10`
records, the evaluation batch built by the harness is exactly the first
10 records of the split, in order. -/
theorem testBatch_is_ordered_head (split : List Text) (h : test_batch ≤ split.length) :
    buildTestBatch split = some (split.take test_batch) :=
  collectBatch_eq_take split test_batch h

/-- Witness for C7 on a concrete 12-record split. -/
theorem testBatch_is_ordered_head_witness :
    buildTestBatch (List.replicate 12 (['a'] : Text)) =
      some ((List.replicate 12 (['a'] : Text)).take test_batch) :=
  testBatch_is_ordered_head (List.replicate 12 ['a']) (by decide)

/-- Claim C8: batch processing is strictly sequential and aggregation is
last.  In the trace of a run over `n` samples, sample `i` occupies
positions `3*i` (prompt truncation), `3*i+1` (generation) and `3*i+2`
(alignment); hence every event of sample `i` precedes every event of any
later sample `j > i` (since `3*i+2 < 3*j`).  The single aggregation event
sits at position `3*n`, after every sample event, and the trace has
exactly `3*n + 1` events — scoring never observes a partial batch. -/
theorem mainTrace_sequential (n i : Nat) (h : i < n) :
    (mainTrace n)[3 * i]? = some (.truncate i) ∧
    (mainTrace n)[3 * i + 1]? = some (.generate i) ∧
    (mainTrace n)[3 * i + 2]? = some (.align i) ∧
    (mainTrace n)[3 * n]? = some .aggregate ∧
    (mainTrace n).length = 3 * n + 1 := by
  have hl := loopTrace_length n
  have hg := loopTrace_getElem n i h
  have h3 : 3 * i + 2 < 3 * n := by omega
  refine ⟨?_, ?_, ?_, ?_, ?_⟩
  · rw [mainTrace, List.getElem?_append_left (by omega)]; exact hg.1
  · rw [mainTrace, List.getElem?_append_left (by omega)]; exact hg.2.1
  · rw [mainTrace, List.getElem?_append_left (by omega)]; exact hg.2.2
  · rw [mainTrace, List.getElem?_append_right (by omega), hl, Nat.sub_self]; rfl
  · simp [mainTrace, hl]

/-- Witness for C8 on a two-sample run. -/
theorem mainTrace_sequential_witness :
    (mainTrace 2)[0]? = some (Ev.truncate 0) ∧
    (mainTrace 2)[1]? = some (Ev.generate 0) ∧
    (mainTrace 2)[2]? = some (Ev.align 0) ∧
    (mainTrace 2)[6]? = some Ev.aggregate ∧
    (mainTrace 2).length = 7 :=
  mainTrace_sequential 2 0 (by decide)

/-- Claim C9: invariants of the pair-construction loop.  The candidate
and reference lists handed to the scorers each have one entry per record,
in dataset order: the `i`-th candidate and `i`-th reference come from the
`i`-th record.  Each aligned generated text is a prefix of the text the
generator produced for that record, and each aligned reference is a
prefix of the original record. -/
theorem processBatch_invariants (gen : Text → GenParams → Text) (cfg : ModelConfig)
    (records : List Text) (i : Nat) (r : Text) (h : records[i]? = some r) :
    (processBatch gen cfg records).1.length = records.length ∧
    (processBatch gen cfg records).2.length = records.length ∧
    (processBatch gen cfg records).1[i]? =
      some ((alignPair (generatedFor gen cfg r) r).1) ∧
    (processBatch gen cfg records).2[i]? =
      some ((alignPair (generatedFor gen cfg r) r).2) ∧
    (alignPair (generatedFor gen cfg r) r).1 <+: generatedFor gen cfg r ∧
    (alignPair (generatedFor gen cfg r) r).2 <+: r := by
  refine ⟨by simp [processBatch], by simp [processBatch], ?_, ?_, ?_, ?_⟩
  · simp [processBatch, List.getElem?_map, h]
  · simp [processBatch, List.getElem?_map, h]
  · exact ⟨(generatedFor gen cfg r).drop (min (generatedFor gen cfg r).length r.length),
      List.take_append_drop _ _⟩
  · exact ⟨r.drop (min (generatedFor gen cfg r).length r.length),
      List.take_append_drop _ _⟩

/-- Witness for C9: a one-record batch with an echo generator and context
length 2. -/
theorem processBatch_invariants_witness :
    (processBatch (fun p _ => p) ⟨2, 1, 1, 1, 1, 0, [], []⟩ ["abc".toList]).1[0]? =
      some ((alignPair (generatedFor (fun p _ => p) ⟨2, 1, 1, 1, 1, 0, [], []⟩
        "abc".toList) "abc".toList).1) ∧
    (processBatch (fun p _ => p) ⟨2, 1, 1, 1, 1, 0, [], []⟩ ["abc".toList]).2[0]? =
      some ((alignPair (generatedFor (fun p _ => p) ⟨2, 1, 1, 1, 1, 0, [], []⟩
        "abc".toList) "abc".toList).2) :=
  ⟨(processBatch_invariants (fun p _ => p) ⟨2, 1, 1, 1, 1, 0, [], []⟩ ["abc".toList]
      0 "abc".toList rfl).2.2.1,
   (processBatch_invariants (fun p _ => p) ⟨2, 1, 1, 1, 1, 0, [], []⟩ ["abc".toList]
      0 "abc".toList rfl).2.2.2.1⟩

/-- Claim C10: the batch-construction loop indexes positions 0 through 9
of the train split with no guard, so it succeeds exactly when the split
holds at least `test_batch = 10` records; under that precondition every
index it touches is in bounds (the out-of-range branch is unreachable). -/
theorem buildTestBatch_total_iff (split : List Text) :
    ((buildTestBatch split).isSome = true ↔ test_batch ≤ split.length) ∧
    (test_batch ≤ split.length → ∀ i, i < test_batch → split[i]?.isSome = true) := by
  constructor
  · constructor
    · intro hs
      by_contra hlt
      rw [buildTestBatch, collectBatch_eq_none split test_batch (by omega)] at hs
      exact nomatch hs
    · intro hle
      rw [buildTestBatch, collectBatch_eq_take split test_batch hle]
      rfl
  · intro hle i hi
    simp [List.getElem?_eq_getElem (show i < split.length by omega)]

/-- Witness for C10 on a concrete 10-record split. -/
theorem buildTestBatch_total_iff_witness :
    (buildTestBatch (List.replicate 10 (['b'] : Text))).isSome = true ∧
    (List.replicate 10 (['b'] : Text))[3]?.isSome = true :=
  ⟨(buildTestBatch_total_iff (List.replicate 10 ['b'])).1.mpr (by decide),
   (buildTestBatch_total_iff (List.replicate 10 ['b'])).2 (by decide) 3 (by decide)⟩
